import Mathlib

/-!
Verification development for `posts/heatAstroModel/heatEqnModel.py`, the 3D
transient hot-box heat-diffusion script (module constants, `bdryConv`,
`lap3DFE`, `dudt`, `dudtFlat`, `simToyHotBox`).

Machine floats of the script are embedded as exact rationals; numpy arrays
become total functions `ℕ → ℕ → ℕ → ℚ` together with explicit grid extents
`(n, m, p)`; each numpy sliced assignment becomes an explicit `Assign` record
(target buffer, index region, right-hand side), executed in source order with
later writes overriding earlier ones, exactly as numpy does.
-/

namespace HeatEqnModel

/-- A 3D temperature array: cell `(i,j,k)` holds a rational temperature.
Arrays are embedded as total functions; the grid extents are carried
separately, and cells outside the extents are irrelevant artifacts. -/
abbrev TField := ℕ → ℕ → ℕ → ℚ

/-! ### Module-level constants (heatEqnModel.py lines 11-27) -/

def thermalDiffusivity : ℚ := 2239 / 100000000

def solarIntensity : ℚ := 1000

def L : ℚ := 3

def W : ℚ := 2

def H : ℚ := 3 / 2

def Deltax : ℚ := 1 / 20

/-- Behavior of `int()` in Python on a rational: truncation toward zero. -/
def pyTrunc (q : ℚ) : ℤ := if 0 ≤ q then ⌊q⌋ else -⌊-q⌋

/-- `int(length/dx)`: the cell count along one axis (lines 25-27 use this
with `L`, `W`, `H` and the shared spacing `Deltax`). -/
def cellsAlong (len dx : ℚ) : ℤ := pyTrunc (len / dx)

def xmaxOf (dx : ℚ) : ℕ := (cellsAlong L dx).toNat

def ymaxOf (dx : ℚ) : ℕ := (cellsAlong W dx).toNat

def zmaxOf (dx : ℚ) : ℕ := (cellsAlong H dx).toNat

/-- Behavior of `round()` in Python 3 on a rational: round half to even. -/
def pyRound (q : ℚ) : ℤ :=
  if Int.fract q < 1 / 2 then ⌊q⌋
  else if 1 / 2 < Int.fract q then ⌊q⌋ + 1
  else if Even ⌊q⌋ then ⌊q⌋ else ⌊q⌋ + 1

/-! ### Sliced-assignment machinery

The spatial operators of the script build output arrays by a sequence of
numpy sliced assignments.  We name the four buffers involved, and execute a
list of assignments left to right; within one assignment, cells in the region
get the right-hand side, all other cells of the target buffer keep their
value. -/

inductive BufName
  | lapB | umatB | bdryTempB | uSurfB
  deriving DecidableEq

structure Store where
  umat : TField
  lap : TField
  bdryTemp : TField
  uSurf : TField

def getBuf (s : Store) : BufName → TField
  | .lapB => s.lap
  | .umatB => s.umat
  | .bdryTempB => s.bdryTemp
  | .uSurfB => s.uSurf

def setBuf (s : Store) (b : BufName) (f : TField) : Store :=
  match b with
  | .lapB => { s with lap := f }
  | .umatB => { s with umat := f }
  | .bdryTempB => { s with bdryTemp := f }
  | .uSurfB => { s with uSurf := f }

/-- One numpy sliced assignment `target[region] = rhs`. -/
structure Assign where
  target : BufName
  region : ℕ → ℕ → ℕ → Bool
  rhs : ℕ → ℕ → ℕ → ℚ

def execAssign (s : Store) (a : Assign) : Store :=
  setBuf s a.target
    (fun i j k => if a.region i j k then a.rhs i j k else getBuf s a.target i j k)

def execProg (s : Store) (l : List Assign) : Store := l.foldl execAssign s

/-- The effect of one assignment on the content of its own target buffer. -/
def applyAssignF (a : Assign) (f : TField) : TField :=
  fun i j k => if a.region i j k then a.rhs i j k else f i j k

/-- The content a buffer ends with after a list of assignments into it. -/
def runAssignsF (l : List Assign) (init : TField) : TField :=
  l.foldl (fun f a => applyAssignF a f) init

/-- The slice `1:-1` along an axis of extent `d`: indices `1 ≤ i ≤ d-2`. -/
def mid (d i : ℕ) : Bool := decide (1 ≤ i ∧ i + 2 ≤ d)

/-- Index `-1` (the last cell) along an axis of extent `d`. -/
def lastIx (d i : ℕ) : Bool := decide (i + 1 = d)

def constF (c : ℚ) : TField := fun _ _ _ => c

/-! ### `lap3DFE` (lines 64-109)

The 27 sliced assignments of the source, in source order, all writing into the
freshly allocated buffer `lap`.  Negative numpy indices `-1`/`-2` become
`d-1`/`d-2`; aligned slices shift indices by `±1` exactly as the slicing does.
Lines 88, 89, 97 and 106 of the source use the literal index `2` where every
parallel case uses `-2`; the transcription keeps those literal `2`s. -/

def lapAssigns (n m p : ℕ) (u : TField) (dx : ℚ) : List Assign :=
  [ -- interior (lines 68-69)
    ⟨.lapB, fun i j k => mid n i && mid m j && mid p k,
      fun i j k => (u (i-1) j k + u (i+1) j k + u i (j-1) k + u i (j+1) k
        + u i j (k-1) + u i j (k+1) - 6 * u i j k) / dx^2⟩,
    -- face x=0 (lines 72-73)
    ⟨.lapB, fun i j k => decide (i = 0) && mid m j && mid p k,
      fun _ j k => (2 * u 1 j k + u 0 (j-1) k + u 0 (j+1) k + u 0 j (k-1)
        + u 0 j (k+1) - 6 * u 0 j k) / (2 * dx^2)⟩,
    -- face x=-1 (lines 74-75)
    ⟨.lapB, fun i j k => lastIx n i && mid m j && mid p k,
      fun _ j k => (2 * u (n-2) j k + u (n-1) (j-1) k + u (n-1) (j+1) k
        + u (n-1) j (k-1) + u (n-1) j (k+1) - 6 * u (n-1) j k) / (2 * dx^2)⟩,
    -- face y=0 (lines 76-77)
    ⟨.lapB, fun i j k => mid n i && decide (j = 0) && mid p k,
      fun i _ k => (2 * u i 1 k + u (i-1) 0 k + u (i+1) 0 k + u i 0 (k-1)
        + u i 0 (k+1) - 6 * u i 0 k) / (2 * dx^2)⟩,
    -- face y=-1 (lines 78-79)
    ⟨.lapB, fun i j k => mid n i && lastIx m j && mid p k,
      fun i _ k => (2 * u i (m-2) k + u (i-1) (m-1) k + u (i+1) (m-1) k
        + u i (m-1) (k-1) + u i (m-1) (k+1) - 6 * u i (m-1) k) / (2 * dx^2)⟩,
    -- face z=0 (lines 80-81)
    ⟨.lapB, fun i j k => mid n i && mid m j && decide (k = 0),
      fun i j _ => (2 * u i j 1 + u (i-1) j 0 + u (i+1) j 0 + u i (j-1) 0
        + u i (j+1) 0 - 6 * u i j 0) / (2 * dx^2)⟩,
    -- face z=-1 (lines 82-83)
    ⟨.lapB, fun i j k => mid n i && mid m j && lastIx p k,
      fun i j _ => (2 * u i j (p-2) + u (i-1) j (p-1) + u (i+1) j (p-1)
        + u i (j-1) (p-1) + u i (j+1) (p-1) - 6 * u i j (p-1)) / (2 * dx^2)⟩,
    -- edge x=0,y=0 (line 86)
    ⟨.lapB, fun i j k => decide (i = 0) && decide (j = 0) && mid p k,
      fun _ _ k => (2 * u 1 0 k + 2 * u 0 1 k + u 0 0 (k-1) + u 0 0 (k+1)
        - 6 * u 0 0 k) / (4 * dx^2)⟩,
    -- edge x=0,y=-1 (line 87)
    ⟨.lapB, fun i j k => decide (i = 0) && lastIx m j && mid p k,
      fun _ _ k => (2 * u 1 (m-1) k + 2 * u 0 (m-2) k + u 0 (m-1) (k-1)
        + u 0 (m-1) (k+1) - 6 * u 0 (m-1) k) / (4 * dx^2)⟩,
    -- edge x=-1,y=0 (line 88; the source mirrors `umat[2,...]`)
    ⟨.lapB, fun i j k => lastIx n i && decide (j = 0) && mid p k,
      fun _ _ k => (2 * u 2 0 k + 2 * u (n-1) 1 k + u (n-1) 0 (k-1)
        + u (n-1) 0 (k+1) - 6 * u (n-1) 0 k) / (4 * dx^2)⟩,
    -- edge x=-1,y=-1 (line 89; the source mirrors `umat[2,...]`)
    ⟨.lapB, fun i j k => lastIx n i && lastIx m j && mid p k,
      fun _ _ k => (2 * u 2 (m-1) k + 2 * u (n-1) (m-2) k + u (n-1) (m-1) (k-1)
        + u (n-1) (m-1) (k+1) - 6 * u (n-1) (m-1) k) / (4 * dx^2)⟩,
    -- edge x=0,z=0 (line 90)
    ⟨.lapB, fun i j k => decide (i = 0) && mid m j && decide (k = 0),
      fun _ j _ => (2 * u 1 j 0 + 2 * u 0 j 1 + u 0 (j+1) 0 + u 0 (j-1) 0
        - 6 * u 0 j 0) / (4 * dx^2)⟩,
    -- edge x=0,z=-1 (line 91)
    ⟨.lapB, fun i j k => decide (i = 0) && mid m j && lastIx p k,
      fun _ j _ => (2 * u 1 j (p-1) + 2 * u 0 j (p-2) + u 0 (j+1) (p-1)
        + u 0 (j-1) (p-1) - 6 * u 0 j (p-1)) / (4 * dx^2)⟩,
    -- edge x=-1,z=0 (line 92)
    ⟨.lapB, fun i j k => lastIx n i && mid m j && decide (k = 0),
      fun _ j _ => (2 * u (n-2) j 0 + 2 * u (n-1) j 1 + u (n-1) (j+1) 0
        + u (n-1) (j-1) 0 - 6 * u (n-1) j 0) / (4 * dx^2)⟩,
    -- edge x=-1,z=-1 (line 93)
    ⟨.lapB, fun i j k => lastIx n i && mid m j && lastIx p k,
      fun _ j _ => (2 * u (n-2) j (p-1) + 2 * u (n-1) j (p-2) + u (n-1) (j+1) (p-1)
        + u (n-1) (j-1) (p-1) - 6 * u (n-1) j (p-1)) / (4 * dx^2)⟩,
    -- edge y=0,z=0 (line 94)
    ⟨.lapB, fun i j k => mid n i && decide (j = 0) && decide (k = 0),
      fun i _ _ => (2 * u i 1 0 + 2 * u i 0 1 + u (i-1) 0 0 + u (i+1) 0 0
        - 6 * u i 0 0) / (4 * dx^2)⟩,
    -- edge y=0,z=-1 (line 95)
    ⟨.lapB, fun i j k => mid n i && decide (j = 0) && lastIx p k,
      fun i _ _ => (2 * u i 1 (p-1) + 2 * u i 0 (p-2) + u (i-1) 0 (p-1)
        + u (i+1) 0 (p-1) - 6 * u i 0 (p-1)) / (4 * dx^2)⟩,
    -- edge y=-1,z=0 (line 96)
    ⟨.lapB, fun i j k => mid n i && lastIx m j && decide (k = 0),
      fun i _ _ => (2 * u i (m-2) 0 + 2 * u i (m-1) 1 + u (i-1) (m-1) 0
        + u (i+1) (m-1) 0 - 6 * u i (m-1) 0) / (4 * dx^2)⟩,
    -- edge y=-1,z=-1 (line 97; the source mirrors `umat[1:-1,2,-1]`)
    ⟨.lapB, fun i j k => mid n i && lastIx m j && lastIx p k,
      fun i _ _ => (2 * u i 2 (p-1) + 2 * u i (m-1) (p-2) + u (i-1) (m-1) (p-1)
        + u (i+1) (m-1) (p-1) - 6 * u i (m-1) (p-1)) / (4 * dx^2)⟩,
    -- corner (line 100)
    ⟨.lapB, fun i j k => decide (i = 0) && decide (j = 0) && decide (k = 0),
      fun _ _ _ => (u 1 0 0 + u 0 1 0 + u 0 0 1 - 3 * u 0 0 0) / (2 * dx^2)⟩,
    -- corner (line 101)
    ⟨.lapB, fun i j k => lastIx n i && decide (j = 0) && decide (k = 0),
      fun _ _ _ => (u (n-2) 0 0 + u (n-1) 1 0 + u (n-1) 0 1
        - 3 * u (n-1) 0 0) / (2 * dx^2)⟩,
    -- corner (line 102)
    ⟨.lapB, fun i j k => decide (i = 0) && lastIx m j && decide (k = 0),
      fun _ _ _ => (u 1 (m-1) 0 + u 0 (m-2) 0 + u 0 (m-1) 1
        - 3 * u 0 (m-1) 0) / (2 * dx^2)⟩,
    -- corner (line 103)
    ⟨.lapB, fun i j k => decide (i = 0) && decide (j = 0) && lastIx p k,
      fun _ _ _ => (u 1 0 (p-1) + u 0 1 (p-1) + u 0 0 (p-2)
        - 3 * u 0 0 (p-1)) / (2 * dx^2)⟩,
    -- corner (line 104)
    ⟨.lapB, fun i j k => decide (i = 0) && lastIx m j && lastIx p k,
      fun _ _ _ => (u 1 (m-1) (p-1) + u 0 (m-2) (p-1) + u 0 (m-1) (p-2)
        - 3 * u 0 (m-1) (p-1)) / (2 * dx^2)⟩,
    -- corner (line 105)
    ⟨.lapB, fun i j k => lastIx n i && decide (j = 0) && lastIx p k,
      fun _ _ _ => (u (n-2) 0 (p-1) + u (n-1) 1 (p-1) + u (n-1) 0 (p-2)
        - 3 * u (n-1) 0 (p-1)) / (2 * dx^2)⟩,
    -- corner (line 106; the source reads `umat[2,-1,0]`)
    ⟨.lapB, fun i j k => lastIx n i && lastIx m j && decide (k = 0),
      fun _ _ _ => (u 2 (m-1) 0 + u (n-1) (m-2) 0 + u (n-1) (m-1) 1
        - 3 * u (n-1) (m-1) 0) / (2 * dx^2)⟩,
    -- corner (line 107)
    ⟨.lapB, fun i j k => lastIx n i && lastIx m j && lastIx p k,
      fun _ _ _ => (u (n-2) (m-1) (p-1) + u (n-1) (m-2) (p-1) + u (n-1) (m-1) (p-2)
        - 3 * u (n-1) (m-1) (p-1)) / (2 * dx^2)⟩ ]

/-- Running the body of `lap3DFE`: a fresh output buffer (`np.empty_like`,
modelled with initial value 0, which no in-extent cell retains) receives the
27 sliced assignments in source order. -/
def lap3DFErun (n m p : ℕ) (u : TField) (dx : ℚ) : Store :=
  execProg ⟨u, constF 0, constF 0, constF 0⟩ (lapAssigns n m p u dx)

/-- `lap3DFE(umat, dx)` (lines 64-109) on a grid of extents `(n,m,p)`. -/
def lap3DFE (n m p : ℕ) (u : TField) (dx : ℚ) : TField :=
  (lap3DFErun n m p u dx).lap

/-! ### `bdryConv` (lines 42-62) -/

/-- The twelve sliced writes of `bdryConv`, in source order: six `fill(Tair)`
writes into `bdryTemp` (lines 47-52), then six face copies of `umat` into
`uSurf` (lines 54-59). -/
def bdryAssigns (n m p : ℕ) (u : TField) (Tair : ℚ) : List Assign :=
  [ ⟨.bdryTempB, fun i _ _ => decide (i = 0), fun _ _ _ => Tair⟩,
    ⟨.bdryTempB, fun _ j _ => decide (j = 0), fun _ _ _ => Tair⟩,
    ⟨.bdryTempB, fun _ _ k => decide (k = 0), fun _ _ _ => Tair⟩,
    ⟨.bdryTempB, fun i _ _ => lastIx n i, fun _ _ _ => Tair⟩,
    ⟨.bdryTempB, fun _ j _ => lastIx m j, fun _ _ _ => Tair⟩,
    ⟨.bdryTempB, fun _ _ k => lastIx p k, fun _ _ _ => Tair⟩,
    ⟨.uSurfB, fun i _ _ => decide (i = 0), fun _ j k => u 0 j k⟩,
    ⟨.uSurfB, fun _ j _ => decide (j = 0), fun i _ k => u i 0 k⟩,
    ⟨.uSurfB, fun _ _ k => decide (k = 0), fun i j _ => u i j 0⟩,
    ⟨.uSurfB, fun i _ _ => lastIx n i, fun _ j k => u (n-1) j k⟩,
    ⟨.uSurfB, fun _ j _ => lastIx m j, fun i _ k => u i (m-1) k⟩,
    ⟨.uSurfB, fun _ _ k => lastIx p k, fun i j _ => u i j (p-1)⟩ ]

/-- Running the body of `bdryConv`: `bdryTemp` and `uSurf` start as
`np.zeros_like(umat)` and receive the twelve writes in source order. -/
def bdryConvRun (n m p : ℕ) (u : TField) (Tair : ℚ) : Store :=
  execProg ⟨u, constF 0, constF 0, constF 0⟩ (bdryAssigns n m p u Tair)

/-- `bdryConv(umat, Tair, B)` (lines 42-62): `B*(bdryTemp - uSurf)`. -/
def bdryConv (n m p : ℕ) (u : TField) (Tair B : ℚ) : TField :=
  fun i j k =>
    B * ((bdryConvRun n m p u Tair).bdryTemp i j k
      - (bdryConvRun n m p u Tair).uSurf i j k)

/-! ### The reflective stencil described by the specification

The Laplacian contract of the spec (section 4.2) says every boundary cell
uses the formula obtained by reflecting each missing exterior neighbor onto
the existing adjacent interior neighbor along the same axis: the mirrored
value is the cell one step inward from the boundary cell itself, entering
with doubled coefficient, with the same per-class denominator the code uses
(`dx²` interior, `2dx²` faces, `4dx²` edges, and the corner formula
`(s - 3u)/(2dx²) = (2s - 6u)/(4dx²)`).  The following definitions follow
those words, to be compared with the transcribed `lap3DFE`. -/

/-- Reflective contribution of the x-axis at `(i,j,k)`: a boundary cell takes
its one-step-inward neighbor twice, an interior cell its two real neighbors. -/
def reflContribX (n : ℕ) (u : TField) (i j k : ℕ) : ℚ :=
  if i = 0 then 2 * u 1 j k
  else if i + 1 = n then 2 * u (n-2) j k
  else u (i-1) j k + u (i+1) j k

def reflContribY (m : ℕ) (u : TField) (i j k : ℕ) : ℚ :=
  if j = 0 then 2 * u i 1 k
  else if j + 1 = m then 2 * u i (m-2) k
  else u i (j-1) k + u i (j+1) k

def reflContribZ (p : ℕ) (u : TField) (i j k : ℕ) : ℚ :=
  if k = 0 then 2 * u i j 1
  else if k + 1 = p then 2 * u i j (p-2)
  else u i j (k-1) + u i j (k+1)

/-- Number of axes along which `(i,j,k)` sits on the boundary. -/
def bdryAxes (n m p : ℕ) (i j k : ℕ) : ℕ :=
  (if i = 0 ∨ i + 1 = n then 1 else 0)
  + (if j = 0 ∨ j + 1 = m then 1 else 0)
  + (if k = 0 ∨ k + 1 = p then 1 else 0)

/-- Denominator scale per cell class: interior `1`, face `2`, edge `4`,
corner `4` (the corner formula `(s-3u)/(2dx²)` written in doubled form). -/
def classScale : ℕ → ℚ
  | 0 => 1
  | 1 => 2
  | 2 => 4
  | _ => 4

/-- The reflective (Neumann-mirrored) stencil as the spec words it. -/
def lap3DFEReflect (n m p : ℕ) (u : TField) (dx : ℚ) : TField :=
  fun i j k =>
    (reflContribX n u i j k + reflContribY m u i j k + reflContribZ p u i j k
      - 6 * u i j k) / (classScale (bdryAxes n m p i j k) * dx^2)

/-! ### Runtime errors, `dudt`, `dudtFlat` and `simToyHotBox` (lines 113-131)

`nameError` and `zeroDivisionError` are the Python exceptions the script can
actually raise before or at the first right-hand-side evaluation;
`configurationError` is the error kind the specification prescribes for
too-coarse grids (spec sections 4.1, 7 and 8) and is included so that its
absence from the behavior of the code can be stated. -/

inductive PyErr
  | nameError
  | zeroDivisionError
  | configurationError
  deriving DecidableEq

/-- True division in Python: raises `ZeroDivisionError` on a zero divisor. -/
def pyDiv (a b : ℚ) : Except PyErr ℚ :=
  if b = 0 then .error .zeroDivisionError else .ok (a / b)

/-- The module binding for the name `powerGen`: the source calls
`powerGen(u, intensity, A)` on line 114 but no definition of `powerGen`
exists anywhere in the repository, so the name is unbound. -/
def powerGenDef : Option (TField → ℚ → ℚ → TField) := none

/-- `dudt(t, u, alpha, intensity, dx, Tair, A, B)` (lines 113-115) on a grid
of extents `(n,m,p)`: evaluating the body resolves `powerGen`; an unbound
name raises `NameError`, otherwise the three fields are summed pointwise. -/
def dudtEval (n m p : ℕ) (t : ℚ) (u : TField)
    (alpha intensity dx Tair A B : ℚ) : Except PyErr TField :=
  match powerGenDef with
  | none => .error .nameError
  | some pg =>
      .ok (fun i j k => alpha * lap3DFE n m p u dx i j k
        + pg u intensity A i j k + bdryConv n m p u Tair B i j k)

/-- Row-major (C-order) flattening of a 3D array with extents `(·, m, p)`. -/
def flatten3 (m p : ℕ) (u : TField) : ℕ → ℚ :=
  fun idx => u (idx / (m * p)) (idx % (m * p) / p) (idx % p)

/-- Row-major reshape of a flat vector to extents `(·, m, p)`. -/
def reshape3 (m p : ℕ) (v : ℕ → ℚ) : TField :=
  fun i j k => v (i * (m * p) + j * p + k)

/-- `dudtFlat` (lines 117-119): reshape, evaluate `dudt`, flatten. -/
def dudtFlatEval (n m p : ℕ) (t : ℚ) (uflat : ℕ → ℚ)
    (alpha intensity dx Tair A B : ℚ) : Except PyErr (ℕ → ℚ) :=
  (dudtEval n m p t (reshape3 m p uflat) alpha intensity dx Tair A B).map
    (flatten3 m p)

/-- `np.arange(0, stop, step)` over exact rationals, for a nonzero step:
`0, step, 2*step, ...` strictly below `stop` (empty when the step is
negative and the stop positive). -/
def arangeQ (stop step : ℚ) : List ℚ :=
  if 0 < step then (List.range (⌈stop / step⌉.toNat)).map (fun i => (i : ℚ) * step)
  else []

/-- The mutable module-level state of `heatEqnModel.py`: the array `u0`
allocated once at import time (line 37) and shared by every run. -/
structure ModState where
  u0 : TField

/-- The argument bundle `simToyHotBox` hands to the external integrator
(the `solve_ivp` call, lines 128-129). -/
structure IntegrationCall where
  nDim : ℕ
  mDim : ℕ
  pDim : ℕ
  tStart : ℚ
  tEnd : ℚ
  teval : List ℚ
  y0 : TField
  alpha : ℚ
  intensity : ℚ
  dx : ℚ
  Tair : ℚ
  A : ℚ
  B : ℚ

def oneHour : ℚ := 3600

def airTemp : ℚ := 27

/-- The pre-integration body of `simToyHotBox(A, B, tmax, nt)`
(lines 121-129), with the module spacing `Deltax` kept as the parameter `dx`
(lines 24-27 derive the grid extents from it).  In source order: `eqTemp`
is computed (its division by `B` raises `ZeroDivisionError` when `B = 0`,
although `eqTemp` is never used afterwards), the module-level `u0` is filled
with `airTemp`, `time = np.arange(0, tmax, nt)` is built (numpy raises
`ZeroDivisionError` on a zero step), and the `solve_ivp` argument bundle is
assembled with the hard-coded span `[0, 10*oneHour]`.  The returned pair is
(result-or-error, module state after). -/
def simToyHotBoxPre (A B tmax nt dx : ℚ) (st : ModState) :
    Except PyErr IntegrationCall × ModState :=
  match pyDiv (A * solarIntensity) B with
  | .error e => (.error e, st)
  | .ok q =>
      let _eqTemp := airTemp + q * L * W / (2 * (L * W + L * H + W * H))
      let st2 : ModState := { u0 := constF airTemp }
      if nt = 0 then (.error .zeroDivisionError, st2)
      else
        (.ok { nDim := xmaxOf dx, mDim := ymaxOf dx, pDim := zmaxOf dx,
               tStart := 0, tEnd := 10 * oneHour, teval := arangeQ tmax nt,
               y0 := st2.u0, alpha := thermalDiffusivity,
               intensity := solarIntensity, dx := dx, Tair := airTemp,
               A := A, B := B }, st2)

/-- Modelled from the spec: `solve_ivp` (scipy, not part of this repository)
is an adaptive-step solver that calls the supplied right-hand side, beginning
with an evaluation at the initial state (spec section 2: "layer 3 calls
layer 2 once per integrator step").  We track only whether that first
evaluation raises. -/
def integratorFirstEval (c : IntegrationCall) : Except PyErr Unit :=
  (dudtFlatEval c.nDim c.mDim c.pDim c.tStart (flatten3 c.mDim c.pDim c.y0)
    c.alpha c.intensity c.dx c.Tair c.A c.B).map (fun _ => ())

/-- A full `simToyHotBox` run: the pre-integration body, then the integrator
with its first right-hand-side evaluation.  Returns the outcome and the
module state after the run. -/
def simToyHotBoxRun (A B tmax nt dx : ℚ) (st : ModState) :
    Except PyErr Unit × ModState :=
  match simToyHotBoxPre A B tmax nt dx st with
  | (.error e, st2) => (.error e, st2)
  | (.ok c, st2) => (integratorFirstEval c, st2)

/-! ### Concrete inputs used by the claim checks -/

/-- The field `u(i,j,k) = i`, linear in the x index. -/
def linX : TField := fun i _ _ => (i : ℚ)

/-- A module state whose `u0` holds all zeros. -/
def st0 : ModState := ⟨constF 0⟩

/-! ### Generic facts about assignment execution -/

theorem getBuf_setBuf (s : Store) (b c : BufName) (f : TField) :
    getBuf (setBuf s b f) c = if b = c then f else getBuf s c := by
  cases b <;> cases c <;> simp [getBuf, setBuf]

/-- Reading buffer `b` after a program runs is the functional fold of just the
assignments that target `b`. -/
theorem getBuf_execProg (s : Store) (l : List Assign) (b : BufName) :
    getBuf (execProg s l) b
      = runAssignsF (l.filter (fun a => a.target == b)) (getBuf s b) := by
  induction l generalizing s with
  | nil => rfl
  | cons a l ih =>
    simp only [execProg, List.foldl, List.filter]
    by_cases h : a.target = b
    · simp only [h, beq_self_eq_true]
      rw [show execAssign s a = setBuf s b (applyAssignF a (getBuf s b)) by
        simp only [execAssign, h]; rfl]
      have hrec := ih (setBuf s b (applyAssignF a (getBuf s b)))
      simp only [execProg] at hrec
      rw [hrec, getBuf_setBuf]
      simp [runAssignsF]
    · have hb : (a.target == b) = false := by simp [h]
      rw [hb]
      have hrec := ih (execAssign s a)
      simp only [execProg] at hrec
      rw [hrec]
      simp [execAssign, getBuf_setBuf, h]

/-- A program none of whose assignments target `umat` leaves `umat` as it was. -/
theorem umat_execProg (s : Store) (l : List Assign)
    (h : ∀ a ∈ l, a.target ≠ BufName.umatB) :
    (execProg s l).umat = s.umat := by
  induction l generalizing s with
  | nil => rfl
  | cons a l ih =>
    rw [show execProg s (a :: l) = execProg (execAssign s a) l from rfl]
    rw [ih _ (fun x hx => h x (List.mem_cons_of_mem a hx))]
    have ha := h a (List.mem_cons_self a l)
    show (setBuf s a.target _).umat = s.umat
    cases hb : a.target
    · simp [setBuf]
    · exact absurd hb ha
    · simp [setBuf]
    · simp [setBuf]

theorem runAssignsF_zero (l : List Assign) (init : TField) (i j k : ℕ)
    (h : ∀ a ∈ l, a.rhs i j k = 0) (h0 : init i j k = 0) :
    runAssignsF l init i j k = 0 := by
  induction l generalizing init with
  | nil => exact h0
  | cons a l ih =>
    simp only [runAssignsF, List.foldl]
    refine ih _ (fun x hx => h x (List.mem_cons_of_mem a hx)) ?_
    simp only [applyAssignF]
    split
    · exact h a (List.mem_cons_self a l)
    · exact h0

/-- If every assignment in a list agrees with the value `v` on its own
region at a point, the final value at that point is `v` when some region
covers the point, and the initial value otherwise. -/
theorem runAssignsF_agree (l : List Assign) (init : TField) (i j k : ℕ) (v : ℚ)
    (h : ∀ a ∈ l, a.region i j k = true → a.rhs i j k = v) :
    runAssignsF l init i j k
      = if ∃ a ∈ l, a.region i j k = true then v else init i j k := by
  induction l generalizing init with
  | nil => simp [runAssignsF]
  | cons a l ih =>
    have step : runAssignsF (a :: l) init = runAssignsF l (applyAssignF a init) := rfl
    rw [step, ih _ (fun x hx => h x (List.mem_cons_of_mem a hx))]
    by_cases hl : ∃ x ∈ l, x.region i j k = true
    · rw [if_pos hl,
        if_pos ⟨hl.choose, List.mem_cons_of_mem a hl.choose_spec.1, hl.choose_spec.2⟩]
    · rw [if_neg hl]
      simp only [applyAssignF]
      by_cases ha : a.region i j k = true
      · rw [if_pos ha, if_pos ⟨a, List.mem_cons_self a l, ha⟩]
        exact h a (List.mem_cons_self a l) ha
      · rw [if_neg ha, if_neg ?_]
        rintro ⟨x, hx, hxr⟩
        rcases List.mem_cons.mp hx with rfl | hx2
        · exact ha hxr
        · exact hl ⟨x, hx2, hxr⟩

/-! ### Claim checks -/

/-- Claim C1: the claim says `lap3DFE` treats every boundary cell by
reflecting each missing exterior neighbor onto the adjacent interior neighbor
one step inward.  The code violates this at the four assignments that mirror
index `2` instead of `-2` (lines 88, 89, 97, 106).  On a 5×5×5 grid with the
field `u(i,j,k) = i` and `dx = 1`, at the edge cell `(4,0,1)` (line 88) the
code produces `-1` while the reflective formula of the claim gives `-1/2`. -/
theorem lap_mirror_typo_eval :
    lap3DFE 5 5 5 linX 1 4 0 1 = -1
      ∧ lap3DFEReflect 5 5 5 linX 1 4 0 1 = -(1/2)
      ∧ ((-1 : ℚ) ≠ -(1/2)) := by
  refine ⟨?_, ?_, by norm_num⟩
  · norm_num [lap3DFE, lap3DFErun, execProg, lapAssigns, execAssign, setBuf, getBuf,
      mid, lastIx, constF, linX]
  · norm_num [lap3DFEReflect, reflContribX, reflContribY, reflContribZ, bdryAxes,
      classScale, linX]

/-- Claim C2 (counterexample): the claim says every call of `simToyHotBox`
fails with an unbound-name error, but with `B = 0` the call fails earlier
with `ZeroDivisionError`, in the `eqTemp` expression, before the right-hand
side is ever evaluated. -/
theorem simRun_B0_zeroDivision :
    (simToyHotBoxRun 0 0 3600 60 (1/20) st0).1 = .error .zeroDivisionError
      ∧ PyErr.zeroDivisionError ≠ PyErr.nameError := by
  refine ⟨?_, by decide⟩
  simp [simToyHotBoxRun, simToyHotBoxPre, pyDiv]

/-- Claim C2 (amended): every evaluation of `dudt` and of `dudtFlat` fails
with the unbound-name error on `powerGen`, and every call of `simToyHotBox`
fails with some error (`ZeroDivisionError` when `B = 0` or `nt = 0`,
otherwise the `NameError` from the first right-hand-side evaluation), so no
time integration can ever complete. -/
theorem dudt_always_nameError :
    (∀ n m p : ℕ, ∀ t : ℚ, ∀ u : TField, ∀ alpha intensity dx Tair A B : ℚ,
        dudtEval n m p t u alpha intensity dx Tair A B = .error .nameError)
      ∧ (∀ n m p : ℕ, ∀ t : ℚ, ∀ v : ℕ → ℚ, ∀ alpha intensity dx Tair A B : ℚ,
        dudtFlatEval n m p t v alpha intensity dx Tair A B = .error .nameError)
      ∧ (∀ A B tmax nt dx : ℚ, ∀ st : ModState,
        ∃ e, (simToyHotBoxRun A B tmax nt dx st).1 = .error e) := by
  refine ⟨fun _ _ _ _ _ _ _ _ _ _ _ => rfl, fun _ _ _ _ _ _ _ _ _ _ _ => rfl, ?_⟩
  intro A B tmax nt dx st
  by_cases hB : B = 0
  · exact ⟨.zeroDivisionError, by simp [simToyHotBoxRun, simToyHotBoxPre, pyDiv, hB]⟩
  · by_cases hnt : nt = 0
    · exact ⟨.zeroDivisionError, by simp [simToyHotBoxRun, simToyHotBoxPre, pyDiv, hB, hnt]⟩
    · exact ⟨.nameError, by
        simp [simToyHotBoxRun, simToyHotBoxPre, pyDiv, hB, hnt, integratorFirstEval,
          dudtFlatEval, dudtEval, powerGenDef, Except.map]⟩

/-- Claim C3: on every spatially constant field, `lap3DFE` returns exactly
zero at every cell, whatever the grid extents and the spacing: interior,
face, edge and corner formulas (including the four mistranscribed mirror
indices, which read the constant value anyway) all cancel. -/
theorem lap3DFE_const_zero (n m p : ℕ) (c dx : ℚ) (i j k : ℕ) :
    lap3DFE n m p (constF c) dx i j k = 0 := by
  have h1 : lap3DFE n m p (constF c) dx
      = runAssignsF (lapAssigns n m p (constF c) dx) (constF 0) :=
    getBuf_execProg ⟨constF c, constF 0, constF 0, constF 0⟩ _ BufName.lapB
  rw [h1]
  refine runAssignsF_zero _ _ i j k ?_ rfl
  intro a ha
  simp only [lapAssigns, List.mem_cons, List.not_mem_nil, or_false] at ha
  rcases ha with rfl|rfl|rfl|rfl|rfl|rfl|rfl|rfl|rfl|rfl|rfl|rfl|rfl|rfl|rfl|rfl|rfl|rfl|rfl|rfl|rfl|rfl|rfl|rfl|rfl|rfl|rfl <;>
    (simp only [constF]; ring_nf)

/-- Claim C4 (counterexample): the claim says an edge cell accumulates one
convection contribution per touching face (two for an edge).  On a 3×3×3
grid with `u = 1`, `Tair = 0`, `B = 1`, the edge cell `(0,0,1)` touches the
faces `x = 0` and `y = 0`, yet `bdryConv` returns a single contribution
`B*(Tair - u) = -1`, not the superposed `2*B*(Tair - u) = -2`: the numpy
face writes overwrite one another instead of adding. -/
theorem bdryConv_edge_eval :
    bdryConv 3 3 3 (constF 1) 0 1 0 0 1 = -1 ∧ ((-1 : ℚ) ≠ 2 * (1 : ℚ) * (0 - 1)) := by
  refine ⟨?_, by norm_num⟩
  norm_num [bdryConv, bdryConvRun, execProg, bdryAssigns, execAssign, setBuf, getBuf,
    lastIx, constF]

/-- Claim C4 (amended): `bdryConv(u, Tair, B)` is zero at every cell not on
any of the six boundary faces, and at every boundary cell — face, edge, or
corner alike — it equals `B*(Tair - u)` exactly once, regardless of how many
faces the cell touches. -/
theorem bdryConv_single (n m p : ℕ) (u : TField) (Tair B : ℚ) (i j k : ℕ) :
    bdryConv n m p u Tair B i j k
      = if i = 0 ∨ i + 1 = n ∨ j = 0 ∨ j + 1 = m ∨ k = 0 ∨ k + 1 = p
        then B * (Tair - u i j k) else 0 := by
  have hT : (bdryConvRun n m p u Tair).bdryTemp
      = runAssignsF
          [ ⟨.bdryTempB, fun i _ _ => decide (i = 0), fun _ _ _ => Tair⟩,
            ⟨.bdryTempB, fun _ j _ => decide (j = 0), fun _ _ _ => Tair⟩,
            ⟨.bdryTempB, fun _ _ k => decide (k = 0), fun _ _ _ => Tair⟩,
            ⟨.bdryTempB, fun i _ _ => lastIx n i, fun _ _ _ => Tair⟩,
            ⟨.bdryTempB, fun _ j _ => lastIx m j, fun _ _ _ => Tair⟩,
            ⟨.bdryTempB, fun _ _ k => lastIx p k, fun _ _ _ => Tair⟩ ] (constF 0) :=
    getBuf_execProg ⟨u, constF 0, constF 0, constF 0⟩ _ BufName.bdryTempB
  have hS : (bdryConvRun n m p u Tair).uSurf
      = runAssignsF
          [ ⟨.uSurfB, fun i _ _ => decide (i = 0), fun _ j k => u 0 j k⟩,
            ⟨.uSurfB, fun _ j _ => decide (j = 0), fun i _ k => u i 0 k⟩,
            ⟨.uSurfB, fun _ _ k => decide (k = 0), fun i j _ => u i j 0⟩,
            ⟨.uSurfB, fun i _ _ => lastIx n i, fun _ j k => u (n-1) j k⟩,
            ⟨.uSurfB, fun _ j _ => lastIx m j, fun i _ k => u i (m-1) k⟩,
            ⟨.uSurfB, fun _ _ k => lastIx p k, fun i j _ => u i j (p-1)⟩ ] (constF 0) :=
    getBuf_execProg ⟨u, constF 0, constF 0, constF 0⟩ _ BufName.uSurfB
  have hTv : (bdryConvRun n m p u Tair).bdryTemp i j k
      = if i = 0 ∨ i + 1 = n ∨ j = 0 ∨ j + 1 = m ∨ k = 0 ∨ k + 1 = p
        then Tair else 0 := by
    rw [hT, runAssignsF_agree _ _ i j k Tair ?rhs]
    case rhs =>
      intro a ha
      simp only [List.mem_cons, List.not_mem_nil, or_false] at ha
      rcases ha with rfl|rfl|rfl|rfl|rfl|rfl <;> intro _ <;> rfl
    refine if_congr ?_ rfl rfl
    simp only [List.exists_mem_cons_iff, List.not_mem_nil, lastIx, decide_eq_true_eq]
    constructor
    · rintro (h1|h1|h1|h1|h1|h1|⟨x, hx, _⟩)
      · tauto
      · tauto
      · tauto
      · tauto
      · tauto
      · tauto
      · exact hx.elim
    · intro h1
      tauto
  have hSv : (bdryConvRun n m p u Tair).uSurf i j k
      = if i = 0 ∨ i + 1 = n ∨ j = 0 ∨ j + 1 = m ∨ k = 0 ∨ k + 1 = p
        then u i j k else 0 := by
    rw [hS, runAssignsF_agree _ _ i j k (u i j k) ?rhs]
    case rhs =>
      intro a ha
      simp only [List.mem_cons, List.not_mem_nil, or_false] at ha
      rcases ha with rfl|rfl|rfl|rfl|rfl|rfl <;>
        (simp only [lastIx, decide_eq_true_eq]; intro hreg; congr 1 <;> omega)
    refine if_congr ?_ rfl rfl
    simp only [List.exists_mem_cons_iff, List.not_mem_nil, lastIx, decide_eq_true_eq]
    constructor
    · rintro (h1|h1|h1|h1|h1|h1|⟨x, hx, _⟩)
      · tauto
      · tauto
      · tauto
      · tauto
      · tauto
      · tauto
      · exact hx.elim
    · intro h1
      tauto
  show B * ((bdryConvRun n m p u Tair).bdryTemp i j k
      - (bdryConvRun n m p u Tair).uSurf i j k) = _
  rw [hTv, hSv]
  by_cases hb : i = 0 ∨ i + 1 = n ∨ j = 0 ∨ j + 1 = m ∨ k = 0 ∨ k + 1 = p
  · rw [if_pos hb, if_pos hb, if_pos hb]
  · rw [if_neg hb, if_neg hb, if_neg hb]
    ring

/-- Claim C5: the claim says integrating with `A = 0` and `B = 0` from a
uniform field leaves every snapshot equal to the initial field; instead the
call `simToyHotBox(0, 0, 36000, 3600)` raises `ZeroDivisionError` while
computing the (unused) `eqTemp` with `B = 0`, before any integration, so no
snapshot is ever produced. -/
theorem simRun_A0B0_crashes :
    (simToyHotBoxRun 0 0 36000 3600 (1/20) st0).1 = .error .zeroDivisionError := by
  simp [simToyHotBoxRun, simToyHotBoxPre, pyDiv]

/-- Claim C6 (counterexample): the claim says the integration runs from
`t = 0` to the configured end time `tmax`; but with `tmax = 100` the
assembled `solve_ivp` call still carries the hard-coded end time
`10*3600 = 36000`. -/
theorem sim_tEnd_fixed_eval :
    (simToyHotBoxPre 1 1 100 10 (1/20) st0).1.map (fun c => c.tEnd) = .ok 36000
      ∧ ((36000 : ℚ) ≠ 100) := by
  refine ⟨?_, by norm_num⟩
  simp [simToyHotBoxPre, pyDiv, oneHour, Except.map]
  norm_num

/-- Claim C6 (amended): for every `B ≠ 0` and `nt ≠ 0`, `simToyHotBox`
assembles an integration over the fixed span `[0, 10*oneHour]` — independent
of `tmax` — while `tmax` and `nt` only determine the requested sample times
`np.arange(0, tmax, nt)`. -/
theorem sim_fixed_span (A B tmax nt dx : ℚ) (st : ModState)
    (hB : B ≠ 0) (hnt : nt ≠ 0) :
    (simToyHotBoxPre A B tmax nt dx st).1.map (fun c => (c.tStart, c.tEnd, c.teval))
      = .ok (0, 10 * oneHour, arangeQ tmax nt) := by
  unfold simToyHotBoxPre pyDiv
  simp [hB, hnt, Except.map]

/-- Witness for C6: the amended statement instantiated at
`A = B = 1`, `tmax = 100`, `nt = 10`, `dx = 1/20`. -/
theorem sim_fixed_span_witness :
    ((1 : ℚ) ≠ 0) ∧ ((10 : ℚ) ≠ 0)
      ∧ (simToyHotBoxPre 1 1 100 10 (1/20) st0).1.map (fun c => (c.tStart, c.tEnd, c.teval))
        = .ok (0, 10 * oneHour, arangeQ 100 10) :=
  ⟨by norm_num, by norm_num,
    sim_fixed_span 1 1 100 10 (1/20) st0 (by norm_num) (by norm_num)⟩

/-- Claim C7 (counterexample): the claim says a spacing `dx` larger than the
smallest box dimension must raise `ConfigurationError` before integration.
With `dx = 2 > H = 3/2` the z axis gets `int(1.5/2) = 0` cells, yet the
pre-integration body succeeds and hands the degenerate grid to the
integrator — no error of any kind is raised beforehand. -/
theorem pre_dx_too_large_proceeds :
    H < (2 : ℚ) ∧ zmaxOf 2 = 0
      ∧ (simToyHotBoxPre 1 1 3600 60 2 st0).1.map (fun c => c.tEnd) = .ok 36000 := by
  refine ⟨by norm_num [H], ?_, ?_⟩
  · norm_num [zmaxOf, cellsAlong, pyTrunc, H]
  · simp [simToyHotBoxPre, pyDiv, oneHour, Except.map]
    norm_num

/-- Claim C7 (amended): the code performs no grid validation at all: for
every argument list, the pre-integration body of `simToyHotBox` never
produces a `ConfigurationError` (its only failure is `ZeroDivisionError`,
from `B = 0` or a zero `arange` step). -/
theorem pre_never_configError (A B tmax nt dx : ℚ) (st : ModState) :
    (simToyHotBoxPre A B tmax nt dx st).1 ≠ Except.error PyErr.configurationError := by
  unfold simToyHotBoxPre pyDiv
  by_cases hB : B = 0
  · simp [hB]
  · by_cases hnt : nt = 0 <;> simp [hB, hnt]

/-- Claim C8 (counterexample): the claim says cell counts use round-to-
nearest; with `L = 3`, `dx = 2` the code computes `int(3/2) = 1` while
`round(3/2) = 2`. -/
theorem cellsAlong_truncates :
    cellsAlong 3 2 = 1 ∧ pyRound ((3 : ℚ) / 2) = 2 ∧ (1 : ℤ) ≠ 2 := by
  refine ⟨?_, ?_, by decide⟩
  · norm_num [cellsAlong, pyTrunc]
  · norm_num [pyRound, Int.fract]

/-- Claim C8 (amended): the cell count along an axis is `int(L/dx)` —
truncation, not rounding; it coincides with `round(L/dx)` exactly when the
fractional part of `L/dx` is below one half (as with the actual constants of
the script, where `L/dx` is an integer), and the three module extents all
derive from the one shared spacing. -/
theorem cellsAlong_round_agree (Lb dxb : ℚ) (hL : 0 < Lb) (hdx : 0 < dxb)
    (hfr : Int.fract (Lb / dxb) < 1 / 2) :
    cellsAlong Lb dxb = pyRound (Lb / dxb)
      ∧ (xmaxOf dxb, ymaxOf dxb, zmaxOf dxb)
        = ((cellsAlong L dxb).toNat, (cellsAlong W dxb).toNat, (cellsAlong H dxb).toNat) := by
  constructor
  · unfold cellsAlong pyTrunc pyRound
    rw [if_pos (le_of_lt (div_pos hL hdx)), if_pos hfr]
  · rfl

/-- Witness for C8: the amended statement at `L = 3`, `dx = Deltax = 1/20`,
where `L/dx = 60` exactly. -/
theorem cellsAlong_round_agree_witness :
    ((0 : ℚ) < 3) ∧ ((0 : ℚ) < 1/20) ∧ Int.fract ((3 : ℚ) / (1/20)) < 1/2
      ∧ cellsAlong 3 (1/20) = pyRound ((3 : ℚ) / (1/20)) :=
  ⟨by norm_num, by norm_num, by norm_num [Int.fract],
    (cellsAlong_round_agree 3 (1/20) (by norm_num) (by norm_num)
      (by norm_num [Int.fract])).1⟩

/-- Claim C9: neither spatial operator mutates its input field: after the
body of `lap3DFE` runs, and after the body of `bdryConv` runs, the `umat`
buffer is exactly the field that was passed in — every sliced assignment
targets a freshly allocated output buffer. -/
theorem spatial_ops_read_only (n m p : ℕ) (u : TField) (dx Tair : ℚ) :
    (lap3DFErun n m p u dx).umat = u ∧ (bdryConvRun n m p u Tair).umat = u := by
  constructor
  · refine umat_execProg _ _ ?_
    intro a ha
    simp only [lapAssigns, List.mem_cons, List.not_mem_nil, or_false] at ha
    rcases ha with rfl|rfl|rfl|rfl|rfl|rfl|rfl|rfl|rfl|rfl|rfl|rfl|rfl|rfl|rfl|rfl|rfl|rfl|rfl|rfl|rfl|rfl|rfl|rfl|rfl|rfl|rfl <;> simp
  · refine umat_execProg _ _ ?_
    intro a ha
    simp only [bdryAssigns, List.mem_cons, List.not_mem_nil, or_false] at ha
    rcases ha with rfl|rfl|rfl|rfl|rfl|rfl|rfl|rfl|rfl|rfl|rfl|rfl <;> simp

/-- Claim C10 (counterexample): the claim says a run touches no module-level
mutable state; but `simToyHotBox` fills the module-level array `u0` with
`airTemp = 27`: starting from a module state whose `u0` is all zeros, after
the run the shared `u0` holds `27`. -/
theorem simRun_mutates_module_u0 :
    st0.u0 0 0 0 = 0
      ∧ (simToyHotBoxRun 1 1 3600 60 (1/20) st0).2.u0 0 0 0 = 27
      ∧ ((27 : ℚ) ≠ 0) := by
  refine ⟨rfl, ?_, by norm_num⟩
  simp [simToyHotBoxRun, simToyHotBoxPre, pyDiv, integratorFirstEval, dudtFlatEval,
    dudtEval, powerGenDef, constF, airTemp]

/-- Claim C10 (amended): far from leaving module state alone, every
`simToyHotBox` run with `B ≠ 0` overwrites the shared module-level `u0`
with the ambient temperature at every cell. -/
theorem simRun_fills_module_u0 (A B tmax nt dx : ℚ) (st : ModState) (hB : B ≠ 0)
    (i j k : ℕ) :
    (simToyHotBoxRun A B tmax nt dx st).2.u0 i j k = airTemp := by
  by_cases hnt : nt = 0 <;>
    simp [simToyHotBoxRun, simToyHotBoxPre, pyDiv, hB, hnt, integratorFirstEval,
      dudtFlatEval, dudtEval, powerGenDef, constF]

/-- Witness for C10: the amended statement at `A = B = 1`, `tmax = 3600`,
`nt = 60`, `dx = 1/20`, cell `(2,3,4)`. -/
theorem simRun_fills_module_u0_witness :
    ((1 : ℚ) ≠ 0)
      ∧ (simToyHotBoxRun 1 1 3600 60 (1/20) st0).2.u0 2 3 4 = airTemp :=
  ⟨by norm_num, simRun_fills_module_u0 1 1 3600 60 (1/20) st0 (by norm_num) 2 3 4⟩

end HeatEqnModel
